import Mathlib

/-!
Shallow embedding of the Tsuro rule/board engine.

Sources embedded from the repository:
- `src/Tsuro/Common/utils/constants.js` (BOARD_SIZE, DIRECTIONS, DIRECTIONS_CLOCKWISE, PORTS)
- `src/Tsuro/Common/position.js` (Position)
- `src/unnamed/part_003` (Coords)
- `src/unnamed/part_002` (Tile)
- `src/unnamed/part_004` (RuleChecker)

The files `board.js`, `path.js` and `utils/incrementIndex.js` are required
by the rule checker but are not present under `src/`; those parts are
modelled from the specification (each such definition's doc comment starts
with "Modelled from the spec:").
-/

namespace Tsuro

/-- `BOARD_SIZE = 10` from `constants.js`. -/
def BOARD_SIZE : Int := 10

/-- The four direction constants of `constants.js` (`DIRECTIONS`). -/
inductive Dir where
  | north
  | east
  | south
  | west
deriving DecidableEq, BEq, Repr

/-- `DIRECTIONS_CLOCKWISE` from `constants.js`: north, east, south, west. -/
def DIRECTIONS_CLOCKWISE : List Dir := [Dir.north, Dir.east, Dir.south, Dir.west]

/-- Index of a direction in `DIRECTIONS_CLOCKWISE` (what
`DIRECTIONS_CLOCKWISE.indexOf(direction)` computes in `position.js`). -/
def dirIdx : Dir → Nat
  | Dir.north => 0
  | Dir.east => 1
  | Dir.south => 2
  | Dir.west => 3

/-- Element lookup `DIRECTIONS_CLOCKWISE[idx]` used by `Position.rotate`
(total: an index of 3 or more maps to the last entry, west; the callers
always pass an index below 4). -/
def dirOfIdx (n : Nat) : Dir :=
  if n = 0 then Dir.north
  else if n = 1 then Dir.east
  else if n = 2 then Dir.south
  else Dir.west

/-- Modelled from the spec: `utils/incrementIndex.js` is not under `src/`.
Cyclic increment of an index into an array of length `len` by `rotations`
steps ("cyclic relabeling of side under a 90 degree clockwise tile
rotation", data-model section of the spec). -/
def incrementIndex (idx : Nat) (len : Nat) (rotations : Nat) : Nat :=
  (idx + rotations) % len

/-- `Position` from `position.js`: a direction and a port number. -/
structure Position where
  direction : Dir
  port : Nat
deriving DecidableEq, Repr

namespace Position

/-- `Position.copy` from `position.js`. -/
def copy (p : Position) : Position :=
  ⟨p.direction, p.port⟩

/-- `Position.reflect` from `position.js`: flip the direction to the
opposite side and toggle the port between `PORTS.ZERO` and `PORTS.ONE`. -/
def reflect (p : Position) : Position :=
  let d :=
    match p.direction with
    | Dir.north => Dir.south
    | Dir.east => Dir.west
    | Dir.south => Dir.north
    | Dir.west => Dir.east
  ⟨d, if p.port == 0 then 1 else 0⟩

/-- `Position.isEqualTo` from `position.js`: exact match on direction
and port. -/
def isEqualTo (p q : Position) : Bool :=
  decide (p.direction = q.direction) && (p.port == q.port)

/-- `Position.rotate` from `position.js`: the direction moves
`rotations` steps along `DIRECTIONS_CLOCKWISE` (via `incrementIndex`),
the port is unchanged. -/
def rotate (p : Position) (rotations : Nat) : Position :=
  ⟨dirOfIdx (incrementIndex (dirIdx p.direction) DIRECTIONS_CLOCKWISE.length rotations), p.port⟩

end Position

/-- Modelled from the spec: `path.js` is not under `src/`. A `PathSegment`
is "an unordered pair of EdgePositions on one tile" (data-model section);
stored with an ordered `start` and ending position as the renderer in
`src/unnamed/part_002` reads `path.start` and `path.end`. -/
structure Path where
  start : Position
  endPos : Position
deriving DecidableEq, Repr

namespace Path

/-- Modelled from the spec: copy of a path segment, copying both
endpoint positions (no aliasing of the source's positions). -/
def copy (p : Path) : Path :=
  ⟨p.start.copy, p.endPos.copy⟩

/-- Modelled from the spec: rotation of a path segment "rotates every
segment's endpoints" (spec 4.1 on `rotate(tile, k)`). -/
def rotate (p : Path) (rotations : Nat) : Path :=
  ⟨p.start.rotate rotations, p.endPos.rotate rotations⟩

/-- Modelled from the spec: path equality is "symmetric in its two
endpoints" (spec 4.1 on `isEqualTo`), comparing endpoint positions with
`Position.isEqualTo`. -/
def isEqualTo (p q : Path) : Bool :=
  (Position.isEqualTo p.start q.start && Position.isEqualTo p.endPos q.endPos) ||
    (Position.isEqualTo p.start q.endPos && Position.isEqualTo p.endPos q.start)

/-- Modelled from the spec: "given the EdgePosition an avatar enters on,
returns the EdgePosition it exits on (the other endpoint of the segment
containing entryPosition)" (spec 4.1); `none` when the position is not an
endpoint of this segment. -/
def getEndingPosition (p : Path) (position : Position) : Option Position :=
  if Position.isEqualTo position p.start then some p.endPos
  else if Position.isEqualTo position p.endPos then some p.start
  else none

end Path

/-- `Tile` from `src/unnamed/part_002`: an ordered collection of path
segments. -/
structure Tile where
  paths : List Path
deriving DecidableEq, Repr

namespace Tile

/-- `Tile.rotate` from `src/unnamed/part_002`: rotate every path by
`rotations % DIRECTIONS_CLOCKWISE.length` quarter-turns clockwise
(a no-op when that remainder is zero). -/
def rotate (t : Tile) (rotations : Nat) : Tile :=
  let actualRotations := rotations % DIRECTIONS_CLOCKWISE.length
  if actualRotations > 0 then ⟨t.paths.map (fun p => p.rotate actualRotations)⟩ else t

/-- `Tile.copy` from `src/unnamed/part_002`: an independent tile with
copied paths, rotated when `rotations > 0`. -/
def copy (t : Tile) (rotations : Nat) : Tile :=
  let tileCopy : Tile := ⟨t.paths.map Path.copy⟩
  if rotations > 0 then tileCopy.rotate rotations else tileCopy

/-- `Tile.getEndingPosition` from `src/unnamed/part_002`: the first
non-empty result of `path.getEndingPosition(position)` over the tile's
paths (the `first` array polyfill, which is not under `src/`, is modelled
from this use as first non-null callback result). -/
def getEndingPosition (t : Tile) (position : Position) : Option Position :=
  t.paths.findSome? (fun path => path.getEndingPosition position)

/-- `Tile.isEqualTo` from `src/unnamed/part_002`: every path of this tile
matches some path of the other tile. -/
def isEqualTo (t other : Tile) : Bool :=
  t.paths.all (fun path => other.paths.any (fun otherPath => otherPath.isEqualTo path))

/-- `Tile.isEqualToRotated` from `src/unnamed/part_002`: equality with the
other tile allowing for a difference in rotations (0 to 3). -/
def isEqualToRotated (t other : Tile) : Bool :=
  t.isEqualTo other ||
    t.isEqualTo (other.copy 1) ||
    t.isEqualTo (other.copy 2) ||
    t.isEqualTo (other.copy 3)

end Tile

/-- `Coords` from `src/unnamed/part_003`: an integer grid coordinate. -/
structure Coords where
  x : Int
  y : Int
deriving DecidableEq, Repr

namespace Coords

/-- `Coords.copy` from `src/unnamed/part_003`. -/
def copy (c : Coords) : Coords :=
  ⟨c.x, c.y⟩

/-- `Coords._isValidCoordinate` from `src/unnamed/part_003`: a value is
valid when `0 <= value < BOARD_SIZE`. -/
def isValidCoordinate (value : Int) : Bool :=
  decide (value ≥ 0) && decide (value < BOARD_SIZE)

/-- `Coords._moveAlongAxis` from `src/unnamed/part_003`: move one axis by
`multiplier * value`; the throw "Cannot move this way" on an invalid
resulting value is modelled as `none`. -/
def moveAlongAxis (c : Coords) (value : Int) (isHorizontalMove : Bool) (isPositive : Bool) :
    Option Coords :=
  let multiplier : Int := if isPositive then 1 else -1
  if isHorizontalMove then
    let newVal := c.x + multiplier * value
    if isValidCoordinate newVal then some ⟨newVal, c.y⟩ else none
  else
    let newVal := c.y + multiplier * value
    if isValidCoordinate newVal then some ⟨c.x, newVal⟩ else none

/-- `Coords.move` from `src/unnamed/part_003`: negative values throw
(`none`); positive values dispatch on the direction (vertical moves are
positive toward south, horizontal moves positive toward east); a zero
value leaves the coordinate unchanged. -/
def move (c : Coords) (direction : Dir) (value : Int) : Option Coords :=
  if value < 0 then none
  else if value > 0 then
    match direction with
    | Dir.north => c.moveAlongAxis value false false
    | Dir.south => c.moveAlongAxis value false true
    | Dir.east => c.moveAlongAxis value true true
    | Dir.west => c.moveAlongAxis value true false
  else some c

/-- `Coords.moveOne` from `src/unnamed/part_003`: `move(direction, 1)`. -/
def moveOne (c : Coords) (direction : Dir) : Option Coords :=
  c.move direction 1

/-- `Coords.isEqualTo` from `src/unnamed/part_003`: componentwise
equality. -/
def isEqualTo (c other : Coords) : Bool :=
  (c.x == other.x) && (c.y == other.y)

end Coords

/-- An avatar as the board state stores it (spec data-model section):
its current coordinate and the edge position it occupies and faces. -/
structure Avatar where
  coords : Coords
  position : Position
deriving DecidableEq, Repr

/-- A tile-placement action (`IntermediateAction` of
`src/Tsuro/Common/action.js`): a tile and a target coordinate. -/
structure TilePlacement where
  tile : Tile
  coords : Coords
deriving DecidableEq, Repr

/-- A player as the rule checker reads it (spec data-model section):
identifier and hand of tiles. -/
structure Player where
  id : String
  hand : List Tile
deriving DecidableEq, Repr

/-- Modelled from the spec: `board.js` is not under `src/`. A `BoardState`
is "a sparse mapping from Coordinate to placed Tile, plus a mapping from
player identifier to Avatar" (spec data-model section), both kept as
association lists. -/
structure BoardState where
  tiles : List (Coords × Tile)
  avatars : List (String × Avatar)
deriving DecidableEq, Repr

namespace BoardState

/-- Modelled from the spec: `getTile(coord)` lookup, returning an absent
result rather than failing when no tile is placed there (spec 4.2). -/
def getTile (s : BoardState) (coords : Coords) : Option Tile :=
  (s.tiles.find? (fun entry => entry.1.isEqualTo coords)).map Prod.snd

/-- Modelled from the spec: `getAvatar(playerId)` lookup, returning an
absent result when the player has no avatar yet (spec 4.2). -/
def getAvatar (s : BoardState) (playerId : String) : Option Avatar :=
  (s.avatars.find? (fun entry => entry.1 == playerId)).map Prod.snd

/-- Modelled from the spec: `hasNeighboringTiles(coord)` is true if any of
the 4 orthogonal neighbor coordinates holds a tile (spec 4.2); an off-grid
neighbor counts as no tile. -/
def hasNeighboringTiles (s : BoardState) (coords : Coords) : Bool :=
  DIRECTIONS_CLOCKWISE.any (fun d =>
    match coords.moveOne d with
    | some c => (s.getTile c).isSome
    | none => false)

/-- Modelled from the spec: the static elimination predicate
`isAvatarOnOutsidePosition(coord, position)`: "true iff the avatar's
current position's exit would leave the grid", exposed statically so the
rule checker can evaluate it against hypothetical post-placement copies
(spec 4.2). -/
def isAvatarOnOutsidePosition (coords : Coords) (position : Position) : Bool :=
  (coords.moveOne position.direction).isNone

/-- Modelled from the spec: `copy()` deep-clones the tile mapping and the
avatar mapping (spec 4.2). -/
def copy (s : BoardState) : BoardState :=
  ⟨s.tiles.map (fun entry => (entry.1.copy, entry.2.copy 0)),
    s.avatars.map (fun entry => (entry.1, ⟨entry.2.coords.copy, entry.2.position.copy⟩))⟩

/-- Modelled from the spec: one avatar's movement simulation after a
placement (spec 4.2, `placeTile`): repeatedly, if the cell the avatar
faces is off-grid or empty, stop; otherwise enter the neighboring tile at
the reflection of the current position and continue from the exit that
`getEndingPosition` yields (`NotFound` when the entry is not a port of
that tile). The avatar is left at its terminal boundary position rather
than removed from the mapping: `RuleChecker.checkPlacementValidity`
(`src/unnamed/part_004`) reads the avatar from the post-placement copy and
applies the elimination predicate `isAvatarOnOutsidePosition` to it, which
per spec 4.2 is exposed statically for exactly this purpose; removal on
elimination is the session layer's act. The fuel argument is the defensive
iteration bound (`InfiniteLoopDetected` when exceeded, spec 4.2). -/
def moveAvatarFuel : Nat → BoardState → Avatar → Except String Avatar
  | 0, _, _ => Except.error "InfiniteLoopDetected"
  | fuel + 1, s, av =>
    match av.coords.moveOne av.position.direction with
    | none => Except.ok av
    | some nextCoords =>
      match s.getTile nextCoords with
      | none => Except.ok av
      | some tile =>
        let entry := av.position.copy.reflect
        match tile.getEndingPosition entry with
        | none => Except.error "NotFound"
        | some exitPos => moveAvatarFuel fuel s ⟨nextCoords, exitPos⟩

/-- Modelled from the spec: `placeTile(tile, coord)` fails with
`OccupiedCoordinate` if a tile already exists there; otherwise the tile is
placed and every avatar's movement is simulated to a fixed point
(spec 4.2). The defensive iteration bound is four traversals per placed
tile (each tile has four path segments, so a loop-free walk enters each
placed tile at most four times). -/
def placeTile (s : BoardState) (tile : Tile) (coords : Coords) : Except String BoardState :=
  if (s.getTile coords).isSome then Except.error "OccupiedCoordinate"
  else
    let placed : BoardState := ⟨(coords, tile) :: s.tiles, s.avatars⟩
    let fuel := 4 * placed.tiles.length + 4
    (placed.avatars.mapM (fun entry =>
        (moveAvatarFuel fuel placed entry.2).map (fun av => (entry.1, av)))).map
      (fun avatars => ⟨placed.tiles, avatars⟩)

end BoardState

namespace RuleChecker

/-- `RuleChecker._checkPlayerAdjacency` from `src/unnamed/part_004`:
whether the placement coordinate is the avatar's coordinate moved one
step in the direction the avatar faces; a throwing move yields false. -/
def checkPlayerAdjacency (avatar : Option Avatar) (tilePlacement : TilePlacement) : Bool :=
  match avatar with
  | none => false
  | some av =>
    match av.coords.copy.moveOne av.position.direction with
    | some newCoords => newCoords.isEqualTo tilePlacement.coords
    | none => false

/-- `RuleChecker.checkPlacementLegality` from `src/unnamed/part_004`:
the player's avatar exists, the target coordinate holds no tile, the
placement is adjacent to the avatar, and some hand tile is rotation-equal
to the proposed tile. -/
def checkPlacementLegality (boardState : BoardState) (tilePlacement : TilePlacement)
    (player : Player) : Bool :=
  match boardState.getAvatar player.id with
  | none => false
  | some avatar =>
    (boardState.getTile tilePlacement.coords).isNone &&
      checkPlayerAdjacency (some avatar) tilePlacement &&
      player.hand.any (fun tile => tile.isEqualToRotated tilePlacement.tile)

/-- `RuleChecker.checkPlacementValidity` from `src/unnamed/part_004`:
place the proposed tile on a copy of the board and test whether the
player's avatar is not on an outside position afterwards. A thrown
exception (failed placement, or a missing avatar on the copy, whose field
accesses would throw) is `none`. -/
def checkPlacementValidity (boardState : BoardState) (tilePlacement : TilePlacement)
    (player : Player) : Option Bool :=
  let boardCopy := boardState.copy
  match boardCopy.placeTile tilePlacement.tile tilePlacement.coords with
  | Except.error _ => none
  | Except.ok newBoard =>
    match newBoard.getAvatar player.id with
    | none => none
    | some avatarCopy =>
      some (!(BoardState.isAvatarOnOutsidePosition avatarCopy.coords avatarCopy.position))

/-- One iteration body of `RuleChecker._doesPlayerHaveValidMove` from
`src/unnamed/part_004`: place a copy of `tile` rotated `j` times at
`coords` on a board copy and test whether the player's avatar survives. -/
def checkTileRotation (boardState : BoardState) (coords : Coords) (id : String)
    (tile : Tile) (j : Nat) : Option Bool :=
  let boardCopy := boardState.copy
  let tileCopy := tile.copy j
  match boardCopy.placeTile tileCopy coords with
  | Except.error _ => none
  | Except.ok newBoard =>
    match newBoard.getAvatar id with
    | none => none
    | some avatarCopy =>
      some (!(BoardState.isAvatarOnOutsidePosition avatarCopy.coords avatarCopy.position))

/-- The inner rotation loop of `RuleChecker._doesPlayerHaveValidMove`
(`for j = 0..3`), with exceptions propagating as `none`. -/
def rotationLoop (boardState : BoardState) (coords : Coords) (id : String) (tile : Tile) :
    List Nat → Option Bool
  | [] => some false
  | j :: rest =>
    match checkTileRotation boardState coords id tile j with
    | none => none
    | some true => some true
    | some false => rotationLoop boardState coords id tile rest

/-- The `hand.some(...)` loop of `RuleChecker._doesPlayerHaveValidMove`,
with exceptions propagating as `none`. -/
def handLoop (boardState : BoardState) (coords : Coords) (id : String) :
    List Tile → Option Bool
  | [] => some false
  | tile :: rest =>
    match rotationLoop boardState coords id tile [0, 1, 2, 3] with
    | none => none
    | some true => some true
    | some false => handLoop boardState coords id rest

/-- `RuleChecker._doesPlayerHaveValidMove` from `src/unnamed/part_004`:
true when some tile of the player's hand, in some of its four rotations,
placed at `coords`, keeps the player off the outside position. -/
def doesPlayerHaveValidMove (boardState : BoardState) (coords : Coords) (player : Player) :
    Option Bool :=
  handLoop boardState coords player.id player.hand

/-- `RuleChecker.checkHandValidity` from `src/unnamed/part_004`: true when
the submitted placement is valid; otherwise the result of
`_doesPlayerHaveValidMove`. -/
def checkHandValidity (boardState : BoardState) (tilePlacement : TilePlacement)
    (player : Player) : Option Bool :=
  match checkPlacementValidity boardState tilePlacement player with
  | none => none
  | some true => some true
  | some false => doesPlayerHaveValidMove boardState tilePlacement.coords player

/-- `RuleChecker.canTakeAction` from `src/unnamed/part_004`: the placement
must be legal, and then hand validity decides. -/
def canTakeAction (boardState : BoardState) (tilePlacement : TilePlacement)
    (player : Player) : Option Bool :=
  if checkPlacementLegality boardState tilePlacement player then
    checkHandValidity boardState tilePlacement player
  else
    some false

/-- `RuleChecker.checkIsMoveOnBoard` from `src/unnamed/part_004`: read the
direction of the tile's ending position for `position` (destructuring an
absent ending position throws, modelled as `none`) and test whether one
grid step in that direction from `coords` succeeds. -/
def checkIsMoveOnBoard (coords : Coords) (tile : Tile) (position : Position) : Option Bool :=
  match tile.getEndingPosition position with
  | none => none
  | some endingPosition =>
    some (coords.copy.moveOne endingPosition.direction).isSome

/-- `RuleChecker.canPlaceAvatar` from `src/unnamed/part_004`: the position
is an outside position at `coords`, the player has no avatar yet, the
cell is empty with no neighboring tiles, and the move stays on the board
(`checkIsMoveOnBoard` is only reached when the earlier conjuncts hold,
mirroring short-circuit evaluation). -/
def canPlaceAvatar (boardState : BoardState) (playerId : String) (coords : Coords)
    (tile : Tile) (position : Position) : Option Bool :=
  if BoardState.isAvatarOnOutsidePosition coords position &&
      (boardState.getAvatar playerId).isNone &&
      (boardState.getTile coords).isNone &&
      !(boardState.hasNeighboringTiles coords) then
    checkIsMoveOnBoard coords tile position
  else
    some false

end RuleChecker

/-! Specification-side definitions, written from the claims' words, to be
compared with the source-derived functions above. -/

/-- Specification-side: the one-step translation of a coordinate in a
direction, under the axis convention of `Coords.move` (vertical moves are
positive toward south, horizontal moves positive toward east). -/
def translate (c : Coords) (d : Dir) : Coords :=
  match d with
  | Dir.north => ⟨c.x, c.y - 1⟩
  | Dir.south => ⟨c.x, c.y + 1⟩
  | Dir.east => ⟨c.x + 1, c.y⟩
  | Dir.west => ⟨c.x - 1, c.y⟩

/-- Specification-side: a coordinate lies on the 10x10 grid. -/
def onGrid (c : Coords) : Prop :=
  0 ≤ c.x ∧ c.x < 10 ∧ 0 ≤ c.y ∧ c.y < 10

/-- The 8 connection points on a tile's boundary: 2 ports per side
(spec data-model section on EdgePosition). -/
def ALLPORTS : List Position :=
  [⟨Dir.north, 0⟩, ⟨Dir.north, 1⟩, ⟨Dir.east, 0⟩, ⟨Dir.east, 1⟩,
    ⟨Dir.south, 0⟩, ⟨Dir.south, 1⟩, ⟨Dir.west, 0⟩, ⟨Dir.west, 1⟩]

/-- A path segment has the given position among its two endpoints. -/
def pathHasPort (p : Path) (port : Position) : Bool :=
  Position.isEqualTo p.start port || Position.isEqualTo p.endPos port

/-- The tile invariant (spec data-model section and testable property 1):
exactly 4 segments, every endpoint one of the 8 boundary ports with the
two endpoints of a segment distinct, and each of the 8 ports an endpoint
of exactly one segment. -/
def tileInvariant (t : Tile) : Prop :=
  t.paths.length = 4 ∧
    (∀ p ∈ t.paths, p.start ∈ ALLPORTS ∧ p.endPos ∈ ALLPORTS ∧ p.start ≠ p.endPos) ∧
    (∀ port ∈ ALLPORTS, t.paths.countP (fun p => pathHasPort p port) = 1)

/-- Specification-side: the segment sets of two tiles match exactly as
unordered sets, each individual segment compared symmetrically in its two
endpoints. -/
def segmentSetEq (a b : Tile) : Prop :=
  (∀ p ∈ a.paths, ∃ q ∈ b.paths, Path.isEqualTo p q = true) ∧
    (∀ q ∈ b.paths, ∃ p ∈ a.paths, Path.isEqualTo p q = true)

/-! Concrete instances used as failing inputs and witnesses. -/

/-- A tile that connects each west port to the north side in every one of
its four rotations: in any rotation, the path containing the west port 1
exits on north port 0. -/
def tileKiller : Tile :=
  ⟨[⟨⟨Dir.west, 1⟩, ⟨Dir.north, 0⟩⟩, ⟨⟨Dir.south, 1⟩, ⟨Dir.west, 0⟩⟩,
    ⟨⟨Dir.east, 1⟩, ⟨Dir.south, 0⟩⟩, ⟨⟨Dir.north, 1⟩, ⟨Dir.east, 0⟩⟩]⟩

/-- A tile routing west port 1 to north port 0 (suicidal for an avatar
entering at west port 1 on the top row of the grid). -/
def tileSuicide : Tile :=
  ⟨[⟨⟨Dir.west, 1⟩, ⟨Dir.north, 0⟩⟩, ⟨⟨Dir.west, 0⟩, ⟨Dir.north, 1⟩⟩,
    ⟨⟨Dir.east, 0⟩, ⟨Dir.south, 0⟩⟩, ⟨⟨Dir.east, 1⟩, ⟨Dir.south, 1⟩⟩]⟩

/-- A straight-through tile routing each west port to the matching east
port (keeps an avatar entering from the west alive away from the east
edge). -/
def tileEscape : Tile :=
  ⟨[⟨⟨Dir.west, 1⟩, ⟨Dir.east, 1⟩⟩, ⟨⟨Dir.west, 0⟩, ⟨Dir.east, 0⟩⟩,
    ⟨⟨Dir.north, 0⟩, ⟨Dir.south, 0⟩⟩, ⟨⟨Dir.north, 1⟩, ⟨Dir.south, 1⟩⟩]⟩

/-- A reordered, endpoint-swapped presentation of `tileKiller`'s segment
set. -/
def tileKillerPerm : Tile :=
  ⟨[⟨⟨Dir.north, 0⟩, ⟨Dir.west, 1⟩⟩, ⟨⟨Dir.east, 1⟩, ⟨Dir.south, 0⟩⟩,
    ⟨⟨Dir.west, 0⟩, ⟨Dir.south, 1⟩⟩, ⟨⟨Dir.east, 0⟩, ⟨Dir.north, 1⟩⟩]⟩

/-- A board with one tile at the origin and the avatar of player "p" on
it at east port 0, facing the empty cell (1, 0). -/
def board0 : BoardState :=
  ⟨[(⟨0, 0⟩, tileEscape)], [("p", ⟨⟨0, 0⟩, ⟨Dir.east, 0⟩⟩)]⟩

/-- Player "p" holding the surviving tile `tileEscape`. -/
def playerWithEscape : Player :=
  ⟨"p", [tileEscape]⟩

/-- Player "p" holding only `tileKiller`, which eliminates them at (1, 0)
in every rotation. -/
def playerForced : Player :=
  ⟨"p", [tileKiller]⟩

/-- The submitted suicidal placement of `tileSuicide` at (1, 0). -/
def placementSuicide : TilePlacement :=
  ⟨tileSuicide, ⟨1, 0⟩⟩

/-- The submitted placement of `tileKiller` at (1, 0). -/
def placementForced : TilePlacement :=
  ⟨tileKiller, ⟨1, 0⟩⟩

instance (t : Tile) : Decidable (tileInvariant t) := by
  unfold tileInvariant; infer_instance

instance (a b : Tile) : Decidable (segmentSetEq a b) := by
  unfold segmentSetEq; infer_instance

instance (c : Coords) : Decidable (onGrid c) := by
  unfold onGrid; infer_instance

/-! A reference-semantics rendering of the rule checker, for the frame
claim: board objects and tile objects live in heaps indexed by allocation
order, a caller passes the real board by reference, `copy()` allocates a
fresh object, and `placeTile` mutates the object it is invoked on. The
result values mirror the value-level rule checker above; the heap
component records which objects each call mutates. -/

/-- The object heap: board-state objects and tile objects, addressed by
allocation index. -/
structure Heap where
  boards : List BoardState
  tiles : List Tile
deriving Repr

namespace Heap

/-- Dereference a board-state object. -/
def lookupBoard (h : Heap) (r : Nat) : Option BoardState := h.boards[r]?

/-- Dereference a tile object. -/
def lookupTile (h : Heap) (r : Nat) : Option Tile := h.tiles[r]?

/-- Allocate a fresh board-state object (what `new Board(...)` around a
`boardState.copy()` result does), returning its reference. -/
def allocBoard (h : Heap) (b : BoardState) : Heap × Nat :=
  (⟨h.boards ++ [b], h.tiles⟩, h.boards.length)

/-- Allocate a fresh tile object (what `tile.copy(j)` does), returning
its reference. -/
def allocTile (h : Heap) (t : Tile) : Heap × Nat :=
  (⟨h.boards, h.tiles ++ [t]⟩, h.tiles.length)

/-- Overwrite the board-state object behind a reference (the in-place
mutation `boardCopy.placeTile(...)` performs on its receiver). -/
def setBoard (h : Heap) (r : Nat) (b : BoardState) : Heap :=
  ⟨h.boards.set r b, h.tiles⟩

end Heap

/-- A player whose hand holds references to tile objects in the heap. -/
structure PlayerRef where
  id : String
  hand : List Nat
deriving Repr

/-- The tile values behind a player's hand references. -/
def handVals (h : Heap) (pl : PlayerRef) : List Tile :=
  pl.hand.filterMap (fun r => h.lookupTile r)

namespace RuleCheckerH

/-- `RuleChecker.checkPlacementLegality` with the board passed by
reference; it reads but never mutates. -/
def checkPlacementLegalityH (h : Heap) (r : Nat) (tp : TilePlacement) (pl : PlayerRef) :
    Bool × Heap :=
  match h.lookupBoard r with
  | none => (false, h)
  | some bs => (RuleChecker.checkPlacementLegality bs tp ⟨pl.id, handVals h pl⟩, h)

/-- `RuleChecker.checkPlacementValidity` with explicit allocation of the
board copy and in-place mutation of that copy by `placeTile`. -/
def checkPlacementValidityH (h : Heap) (r : Nat) (tp : TilePlacement) (playerId : String) :
    Option Bool × Heap :=
  match h.lookupBoard r with
  | none => (none, h)
  | some bs =>
    let alloc := h.allocBoard bs.copy
    match bs.copy.placeTile tp.tile tp.coords with
    | Except.error _ => (none, alloc.1)
    | Except.ok newBoard =>
      let h2 := alloc.1.setBoard alloc.2 newBoard
      ((match newBoard.getAvatar playerId with
        | none => none
        | some av => some (!(BoardState.isAvatarOnOutsidePosition av.coords av.position))),
        h2)

/-- One iteration body of `_doesPlayerHaveValidMove` with explicit
allocation of the board copy and the rotated tile copy, and in-place
mutation of the board copy by `placeTile`. -/
def checkTileRotationH (h : Heap) (r : Nat) (coords : Coords) (id : String) (tr : Nat)
    (j : Nat) : Option Bool × Heap :=
  match h.lookupBoard r, h.lookupTile tr with
  | some bs, some tile =>
    let allocB := h.allocBoard bs.copy
    let tileCopy := tile.copy j
    let allocT := allocB.1.allocTile tileCopy
    match bs.copy.placeTile tileCopy coords with
    | Except.error _ => (none, allocT.1)
    | Except.ok newBoard =>
      let h3 := allocT.1.setBoard allocB.2 newBoard
      ((match newBoard.getAvatar id with
        | none => none
        | some av => some (!(BoardState.isAvatarOnOutsidePosition av.coords av.position))),
        h3)
  | _, _ => (none, h)

/-- The rotation loop of `_doesPlayerHaveValidMove`, threading the heap. -/
def rotationLoopH (r : Nat) (coords : Coords) (id : String) (tr : Nat) :
    Heap → List Nat → Option Bool × Heap
  | h, [] => (some false, h)
  | h, j :: rest =>
    let step := checkTileRotationH h r coords id tr j
    match step.1 with
    | none => (none, step.2)
    | some true => (some true, step.2)
    | some false => rotationLoopH r coords id tr step.2 rest

/-- The hand loop of `_doesPlayerHaveValidMove`, threading the heap. -/
def handLoopH (r : Nat) (coords : Coords) (id : String) :
    Heap → List Nat → Option Bool × Heap
  | h, [] => (some false, h)
  | h, tr :: rest =>
    let step := rotationLoopH r coords id tr h [0, 1, 2, 3]
    match step.1 with
    | none => (none, step.2)
    | some true => (some true, step.2)
    | some false => handLoopH r coords id step.2 rest

/-- `RuleChecker._doesPlayerHaveValidMove` with the board passed by
reference and the hand passed as tile references. -/
def doesPlayerHaveValidMoveH (h : Heap) (r : Nat) (coords : Coords) (pl : PlayerRef) :
    Option Bool × Heap :=
  handLoopH r coords pl.id h pl.hand

/-- `RuleChecker.checkHandValidity` with the board passed by reference. -/
def checkHandValidityH (h : Heap) (r : Nat) (tp : TilePlacement) (pl : PlayerRef) :
    Option Bool × Heap :=
  let step := checkPlacementValidityH h r tp pl.id
  match step.1 with
  | none => (none, step.2)
  | some true => (some true, step.2)
  | some false => doesPlayerHaveValidMoveH step.2 r tp.coords pl

/-- `RuleChecker.canTakeAction` with the board passed by reference. -/
def canTakeActionH (h : Heap) (r : Nat) (tp : TilePlacement) (pl : PlayerRef) :
    Option Bool × Heap :=
  match h.lookupBoard r with
  | none => (some false, h)
  | some bs =>
    if RuleChecker.checkPlacementLegality bs tp ⟨pl.id, handVals h pl⟩ then
      checkHandValidityH h r tp pl
    else (some false, h)

/-- `RuleChecker.canPlaceAvatar` with the board passed by reference; it
reads but never mutates. -/
def canPlaceAvatarH (h : Heap) (r : Nat) (playerId : String) (coords : Coords)
    (tile : Tile) (position : Position) : Option Bool × Heap :=
  match h.lookupBoard r with
  | none => (none, h)
  | some bs => (RuleChecker.canPlaceAvatar bs playerId coords tile position, h)

end RuleCheckerH

/-- Heap extension: every object of the old heap is present, unchanged,
at its old reference; the heap has only grown with fresh objects. -/
def heapExtends (h h' : Heap) : Prop :=
  h.boards.length ≤ h'.boards.length ∧ h.tiles.length ≤ h'.tiles.length ∧
    (∀ i, i < h.boards.length → h'.lookupBoard i = h.lookupBoard i) ∧
    (∀ i, i < h.tiles.length → h'.lookupTile i = h.lookupTile i)

/-- A one-board, one-tile heap holding `board0` and `tileEscape`. -/
def heap0 : Heap := ⟨[board0], [tileEscape]⟩

/-!  Theorems. -/

/-- `Coords.copy` rebuilds the same value. -/
theorem coords_copy_eq (c : Coords) : c.copy = c := rfl

/-- `Coords.isEqualTo` decides value equality. -/
theorem coords_isEqualTo_iff (a b : Coords) : a.isEqualTo b = true ↔ a = b := by
  obtain ⟨ax, ay⟩ := a; obtain ⟨bx, by'⟩ := b
  simp [Coords.isEqualTo, Coords.mk.injEq]

/-- Closed form of `moveOne` for an on-grid starting coordinate: it
yields the one-step translation when that stays on the grid and fails
otherwise. -/
theorem moveOne_eq (c : Coords) (d : Dir)
    (hx0 : 0 ≤ c.x) (hx1 : c.x < 10) (hy0 : 0 ≤ c.y) (hy1 : c.y < 10) :
    c.moveOne d = if onGrid (translate c d) then some (translate c d) else none := by
  obtain ⟨x, y⟩ := c
  simp only at hx0 hx1 hy0 hy1
  cases d <;>
    simp only [Coords.moveOne, Coords.move, Coords.moveAlongAxis, Coords.isValidCoordinate,
      BOARD_SIZE, translate, onGrid, Bool.and_eq_true, decide_eq_true_eq, ge_iff_le] <;>
    norm_num <;>
    split_ifs <;>
    simp_all [Coords.mk.injEq] <;>
    omega

/-- C9: for a coordinate on the 10x10 grid, `moveOne` fails exactly when
the one-step translation in the given direction leaves the grid, and on
success the coordinate becomes that translation. -/
theorem moveOne_fails_iff_off_grid (c : Coords) (d : Dir)
    (hx0 : 0 ≤ c.x) (hx1 : c.x < 10) (hy0 : 0 ≤ c.y) (hy1 : c.y < 10) :
    (c.moveOne d = none ↔ ¬ onGrid (translate c d)) ∧
      (∀ c', c.moveOne d = some c' → c' = translate c d) := by
  rw [moveOne_eq c d hx0 hx1 hy0 hy1]
  split_ifs with hg <;> simp [hg]

/-- C9 witness: at (0, 0) moving north leaves the grid, and moving east
succeeds onto (1, 0). -/
theorem moveOne_fails_iff_off_grid_witness :
    ((Coords.moveOne ⟨0, 0⟩ Dir.north = none ↔ ¬ onGrid (translate ⟨0, 0⟩ Dir.north)) ∧
        (∀ c', Coords.moveOne ⟨0, 0⟩ Dir.north = some c' → c' = translate ⟨0, 0⟩ Dir.north)) ∧
      ((Coords.moveOne ⟨0, 0⟩ Dir.east = none ↔ ¬ onGrid (translate ⟨0, 0⟩ Dir.east)) ∧
        (∀ c', Coords.moveOne ⟨0, 0⟩ Dir.east = some c' → c' = translate ⟨0, 0⟩ Dir.east)) :=
  ⟨moveOne_fails_iff_off_grid ⟨0, 0⟩ Dir.north (by decide) (by decide) (by decide) (by decide),
    moveOne_fails_iff_off_grid ⟨0, 0⟩ Dir.east (by decide) (by decide) (by decide) (by decide)⟩

/-- C10: on the 8 edge positions (port 0 or 1), `reflect` is an
involution up to `isEqualTo`. -/
theorem reflect_reflect_isEqualTo (p : Position) (h : p.port = 0 ∨ p.port = 1) :
    Position.isEqualTo (Position.reflect (Position.reflect p)) p = true := by
  obtain ⟨d, port⟩ := p
  rcases h with h | h <;> simp only at h <;> subst h <;> cases d <;> rfl

/-- C10 witness: reflecting north port 0 twice yields an equal position. -/
theorem reflect_reflect_isEqualTo_witness :
    Position.isEqualTo (Position.reflect (Position.reflect ⟨Dir.north, 0⟩)) ⟨Dir.north, 0⟩
      = true :=
  reflect_reflect_isEqualTo ⟨Dir.north, 0⟩ (Or.inl rfl)

/-- C1 (failing input): on `board0`, the submitted placement of
`tileSuicide` at (1, 0) is suicidal while the hand tile `tileEscape`
survives there, yet `checkHandValidity` returns true — the code returns
"some hand tile survives" instead of "no hand tile survives" on the
suicidal branch, contradicting the claim that it returns false whenever a
hand tile in some rotation would keep the player alive. -/
theorem checkHandValidity_accepts_avoidable_suicide :
    RuleChecker.checkPlacementValidity board0 placementSuicide playerWithEscape = some false ∧
      RuleChecker.checkPlacementValidity board0 ⟨tileEscape, ⟨1, 0⟩⟩ playerWithEscape
        = some true ∧
      playerWithEscape.hand = [tileEscape] ∧
      RuleChecker.checkHandValidity board0 placementSuicide playerWithEscape = some true := by
  refine ⟨?_, ?_, rfl, ?_⟩ <;> rfl

/-- C2 (failing input): on `board0`, player "p" holds only `tileKiller`,
every rotation of which is suicidal at (1, 0); `checkHandValidity`
returns false there although no (tile, rotation) pair in the hand makes
`checkPlacementValidity` true — contradicting the claim that a false
result implies a surviving pair exists. -/
theorem checkHandValidity_false_without_escape :
    playerForced.hand = [tileKiller] ∧
      RuleChecker.checkHandValidity board0 placementForced playerForced = some false ∧
      RuleChecker.checkPlacementValidity board0 ⟨tileKiller.copy 0, ⟨1, 0⟩⟩ playerForced
        = some false ∧
      RuleChecker.checkPlacementValidity board0 ⟨tileKiller.copy 1, ⟨1, 0⟩⟩ playerForced
        = some false ∧
      RuleChecker.checkPlacementValidity board0 ⟨tileKiller.copy 2, ⟨1, 0⟩⟩ playerForced
        = some false ∧
      RuleChecker.checkPlacementValidity board0 ⟨tileKiller.copy 3, ⟨1, 0⟩⟩ playerForced
        = some false := by
  refine ⟨rfl, ?_, ?_, ?_, ?_, ?_⟩ <;> rfl

/-- C3: `canTakeAction` returns true exactly when `checkPlacementLegality`
and `checkHandValidity` both hold, and in particular never returns true
when a tile is already placed at the target coordinate. -/
theorem canTakeAction_iff (s : BoardState) (tp : TilePlacement) (pl : Player) :
    (RuleChecker.canTakeAction s tp pl = some true ↔
        RuleChecker.checkPlacementLegality s tp pl = true ∧
          RuleChecker.checkHandValidity s tp pl = some true) ∧
      ((s.getTile tp.coords).isSome = true →
        RuleChecker.canTakeAction s tp pl ≠ some true) := by
  constructor
  · unfold RuleChecker.canTakeAction
    split_ifs with h <;> simp [h]
  · intro hocc
    have hleg : RuleChecker.checkPlacementLegality s tp pl = false := by
      unfold RuleChecker.checkPlacementLegality
      cases hav : s.getAvatar pl.id with
      | none => rfl
      | some av =>
        cases ht : s.getTile tp.coords with
        | none => rw [ht] at hocc; simp at hocc
        | some t => simp [ht]
    unfold RuleChecker.canTakeAction
    rw [hleg]
    simp

/-- C3 witness: on `board0` the coordinate (0, 0) is occupied, and
`canTakeAction` rejects a placement there. -/
theorem canTakeAction_iff_witness :
    RuleChecker.canTakeAction board0 ⟨tileEscape, ⟨0, 0⟩⟩ playerWithEscape ≠ some true :=
  (canTakeAction_iff board0 ⟨tileEscape, ⟨0, 0⟩⟩ playerWithEscape).2 (by rfl)

/-- C4: `checkPlacementLegality` holds exactly when the player has an
avatar, the target coordinate holds no tile, the target coordinate is the
avatar's coordinate moved one on-grid step in the direction the avatar
faces, and some hand tile is rotation-equal to the proposed tile. -/
theorem checkPlacementLegality_iff (s : BoardState) (tp : TilePlacement) (pl : Player) :
    RuleChecker.checkPlacementLegality s tp pl = true ↔
      ∃ av, s.getAvatar pl.id = some av ∧
        s.getTile tp.coords = none ∧
        (∃ c', av.coords.moveOne av.position.direction = some c' ∧ c' = tp.coords) ∧
        ∃ t ∈ pl.hand, t.isEqualToRotated tp.tile = true := by
  unfold RuleChecker.checkPlacementLegality RuleChecker.checkPlayerAdjacency
  cases hav : s.getAvatar pl.id with
  | none => simp
  | some av =>
    simp only [coords_copy_eq]
    cases hm : av.coords.moveOne av.position.direction with
    | none => simp [hm]
    | some nc =>
      simp [hm, coords_isEqualTo_iff, Bool.and_eq_true, Option.isNone_iff_eq_none,
        List.any_eq_true, and_assoc]

/-- C5: `canPlaceAvatar` returns true exactly when the position's exit at
the coordinate points off the board, the player has no avatar yet, the
target cell is empty with no neighboring placed tiles, and the tile's
ending position for the entry position allows one on-grid step. -/
theorem canPlaceAvatar_iff (s : BoardState) (playerId : String) (coords : Coords)
    (tile : Tile) (position : Position) :
    RuleChecker.canPlaceAvatar s playerId coords tile position = some true ↔
      (coords.moveOne position.direction = none ∧
        s.getAvatar playerId = none ∧
        s.getTile coords = none ∧
        s.hasNeighboringTiles coords = false ∧
        ∃ ep, tile.getEndingPosition position = some ep ∧
          (coords.moveOne ep.direction).isSome = true) := by
  unfold RuleChecker.canPlaceAvatar RuleChecker.checkIsMoveOnBoard
    BoardState.isAvatarOnOutsidePosition
  split_ifs with h
  · simp only [Bool.and_eq_true, Option.isNone_iff_eq_none, Bool.not_eq_true'] at h
    obtain ⟨⟨⟨h1, h2⟩, h3⟩, h4⟩ := h
    cases hep : tile.getEndingPosition position with
    | none => simp [hep, h1, h2, h3, h4]
    | some ep => simp [hep, coords_copy_eq, h1, h2, h3, h4]
  · simp only [Bool.and_eq_true, Option.isNone_iff_eq_none, Bool.not_eq_true'] at h
    constructor
    · intro hfalse; cases hfalse
    · rintro ⟨h1, h2, h3, h4, _⟩
      exact absurd ⟨⟨⟨h1, h2⟩, h3⟩, h4⟩ h

/-- `Path.copy` rebuilds the same value. -/
theorem path_copy_eq (p : Path) : p.copy = p := rfl

/-- `Path.copy` as a function is the identity. -/
theorem path_copy_fun : Path.copy = id :=
  funext path_copy_eq

/-- `dirOfIdx` inverts `dirIdx` on indices below 4. -/
theorem dirIdx_dirOfIdx_of_lt {n : Nat} (h : n < 4) : dirIdx (dirOfIdx n) = n := by
  interval_cases n <;> rfl

/-- Composing position rotations adds the rotation counts. -/
theorem pos_rotate_rotate (p : Position) (a b : Nat) :
    (p.rotate a).rotate b = p.rotate (a + b) := by
  obtain ⟨d, port⟩ := p
  simp only [Position.rotate, incrementIndex, DIRECTIONS_CLOCKWISE, List.length_cons,
    List.length_nil]
  rw [dirIdx_dirOfIdx_of_lt (Nat.mod_lt _ (by norm_num)), Nat.mod_add_mod, Nat.add_assoc]

/-- Rotating a position four times is the identity. -/
theorem pos_rotate_four (p : Position) : p.rotate 4 = p := by
  obtain ⟨d, port⟩ := p
  cases d <;> simp [Position.rotate, incrementIndex, DIRECTIONS_CLOCKWISE, dirOfIdx, dirIdx]

/-- Composing path rotations adds the rotation counts. -/
theorem path_rotate_rotate (p : Path) (a b : Nat) :
    (p.rotate a).rotate b = p.rotate (a + b) := by
  simp [Path.rotate, pos_rotate_rotate]

/-- Rotating a path four times is the identity. -/
theorem path_rotate_four (p : Path) : p.rotate 4 = p := by
  simp [Path.rotate, pos_rotate_four]

/-- A zero-rotation copy keeps the path list. -/
theorem tile_copy_zero (t : Tile) : (t.copy 0).paths = t.paths := by
  simp [Tile.copy, path_copy_fun]

/-- A copy with 1 to 3 rotations maps the rotation over the path list. -/
theorem tile_copy_paths (t : Tile) (r : Nat) (hr : r = 1 ∨ r = 2 ∨ r = 3) :
    (t.copy r).paths = t.paths.map (fun p => p.rotate r) := by
  rcases hr with h | h | h <;> subst h <;>
    simp [Tile.copy, Tile.rotate, DIRECTIONS_CLOCKWISE, path_copy_eq]

/-- `Position.isEqualTo` is reflexive. -/
theorem pos_isEqualTo_refl (p : Position) : Position.isEqualTo p p = true := by
  simp [Position.isEqualTo]

/-- `Path.isEqualTo` is reflexive. -/
theorem path_isEqualTo_refl (p : Path) : Path.isEqualTo p p = true := by
  simp [Path.isEqualTo, pos_isEqualTo_refl]

/-- Tiles with the same path list are `isEqualTo`-equal. -/
theorem tile_isEqualTo_of_paths_eq (t u : Tile) (h : u.paths = t.paths) :
    Tile.isEqualTo t u = true := by
  unfold Tile.isEqualTo
  rw [h, List.all_eq_true]
  intro p hp
  rw [List.any_eq_true]
  exact ⟨p, hp, path_isEqualTo_refl p⟩

/-- Copying with `k` rotations then `4 - k` rotations restores the path
list, for `k` in 1..3. -/
theorem tile_copy_cancel (t : Tile) (k : Nat) (hk : k = 1 ∨ k = 2 ∨ k = 3) :
    ((t.copy k).copy (4 - k)).paths = t.paths := by
  have h4k : 4 - k = 1 ∨ 4 - k = 2 ∨ 4 - k = 3 := by omega
  rw [tile_copy_paths _ _ h4k, tile_copy_paths _ _ hk, List.map_map]
  have hcancel : ∀ p : Path, (p.rotate k).rotate (4 - k) = p := by
    intro p
    rw [path_rotate_rotate]
    have h4 : k + (4 - k) = 4 := by omega
    rw [h4]
    exact path_rotate_four p
  calc t.paths.map ((fun p => p.rotate (4 - k)) ∘ fun p => p.rotate k)
      = t.paths.map (fun p => p) := List.map_congr_left (fun p _ => hcancel p)
    _ = t.paths := List.map_id' t.paths

/-- C7: every tile satisfying the tile invariant is `isEqualToRotated`-equal
to a copy of itself rotated by any number of quarter-turns from 0 to 3. -/
theorem isEqualToRotated_rotation_invariant (t : Tile) (k : Nat)
    (hinv : tileInvariant t) (hk : k < 4) :
    Tile.isEqualToRotated t (t.copy k) = true := by
  unfold Tile.isEqualToRotated
  interval_cases k
  · rw [tile_isEqualTo_of_paths_eq t _ (tile_copy_zero t)]
    simp
  · rw [tile_isEqualTo_of_paths_eq t ((t.copy 1).copy 3) (tile_copy_cancel t 1 (by tauto))]
    simp
  · rw [tile_isEqualTo_of_paths_eq t ((t.copy 2).copy 2) (tile_copy_cancel t 2 (by tauto))]
    simp
  · rw [tile_isEqualTo_of_paths_eq t ((t.copy 3).copy 1) (tile_copy_cancel t 3 (by tauto))]
    simp

/-- C7 witness: `tileKiller` satisfies the tile invariant and matches its
own 2-rotation copy under `isEqualToRotated`. -/
theorem isEqualToRotated_rotation_invariant_witness :
    Tile.isEqualToRotated tileKiller (tileKiller.copy 2) = true :=
  isEqualToRotated_rotation_invariant tileKiller 2 (by decide) (by decide)

/-- `Position.isEqualTo` decides value equality. -/
theorem pos_isEqualTo_iff (a b : Position) : Position.isEqualTo a b = true ↔ a = b := by
  obtain ⟨ad, ap⟩ := a; obtain ⟨bd, bp⟩ := b
  simp [Position.isEqualTo, Position.mk.injEq]

/-- `Path.isEqualTo` holds exactly when the endpoint pairs agree up to
swapping. -/
theorem path_isEqualTo_iff (p q : Path) :
    Path.isEqualTo p q = true ↔
      (p.start = q.start ∧ p.endPos = q.endPos) ∨
        (p.start = q.endPos ∧ p.endPos = q.start) := by
  simp [Path.isEqualTo, pos_isEqualTo_iff]

/-- `Path.isEqualTo` is symmetric. -/
theorem path_isEqualTo_symm {p q : Path} (h : Path.isEqualTo p q = true) :
    Path.isEqualTo q p = true := by
  rw [path_isEqualTo_iff] at *
  tauto

/-- Equal paths have the same ports. -/
theorem hasPort_of_isEqualTo {p q : Path} (h : Path.isEqualTo p q = true) (x : Position) :
    pathHasPort p x = pathHasPort q x := by
  rw [path_isEqualTo_iff] at h
  rcases h with ⟨h1, h2⟩ | ⟨h1, h2⟩ <;> simp [pathHasPort, h1, h2, Bool.or_comm]

/-- In a list whose `countP` for a predicate is one, any two members
satisfying the predicate are equal. -/
theorem count_one_unique {α : Type} {l : List α} {f : α → Bool} (h : l.countP f = 1)
    {x y : α} (hx : x ∈ l) (hy : y ∈ l) (hfx : f x = true) (hfy : f y = true) : x = y := by
  rw [List.countP_eq_length_filter] at h
  obtain ⟨z, hz⟩ := List.length_eq_one.mp h
  have hx' : x ∈ l.filter f := List.mem_filter.mpr ⟨hx, hfx⟩
  have hy' : y ∈ l.filter f := List.mem_filter.mpr ⟨hy, hfy⟩
  rw [hz, List.mem_singleton] at hx' hy'
  rw [hx', hy']

/-- Unfolding of `Tile.isEqualTo`: every path of the first tile matches
some path of the second. -/
theorem tile_all_matched {a b : Tile} (h : Tile.isEqualTo a b = true) :
    ∀ p ∈ a.paths, ∃ q ∈ b.paths, Path.isEqualTo q p = true := by
  intro p hp
  have hany := List.all_eq_true.mp h p hp
  simpa [List.any_eq_true] using hany

/-- C8: for tiles satisfying the tile invariant, `isEqualTo` holds exactly
when the segment sets match as unordered sets, each segment compared
symmetrically in its two endpoints. -/
theorem isEqualTo_iff_segmentSetEq (a b : Tile) (ha : tileInvariant a)
    (hb : tileInvariant b) :
    Tile.isEqualTo a b = true ↔ segmentSetEq a b := by
  constructor
  · intro h
    refine ⟨?_, ?_⟩
    · intro p hp
      obtain ⟨q, hq, hqe⟩ := tile_all_matched h p hp
      exact ⟨q, hq, path_isEqualTo_symm hqe⟩
    · intro q hq
      have hqs : q.start ∈ ALLPORTS := (hb.2.1 q hq).1
      have hcount : a.paths.countP (fun p => pathHasPort p q.start) = 1 :=
        ha.2.2 q.start hqs
      have hex : ∃ p ∈ a.paths, pathHasPort p q.start = true := by
        have hpos : 0 < a.paths.countP (fun p => pathHasPort p q.start) := by
          rw [hcount]; norm_num
        simpa using List.countP_pos_iff.mp hpos
      obtain ⟨p, hp, hpport⟩ := hex
      obtain ⟨q', hq', hq'e⟩ := tile_all_matched h p hp
      have hq'port : pathHasPort q' q.start = true := by
        rw [hasPort_of_isEqualTo hq'e]
        exact hpport
      have hqport : pathHasPort q q.start = true := by
        simp [pathHasPort, pos_isEqualTo_refl]
      have heq : q' = q :=
        count_one_unique (hb.2.2 q.start hqs) hq' hq hq'port hqport
      rw [heq] at hq'e
      exact ⟨p, hp, path_isEqualTo_symm hq'e⟩
  · intro h
    rw [Tile.isEqualTo, List.all_eq_true]
    intro p hp
    rw [List.any_eq_true]
    obtain ⟨q, hq, hpq⟩ := h.1 p hp
    exact ⟨q, hq, path_isEqualTo_symm hpq⟩

/-- C8 witness: `tileKiller` and its reordered, endpoint-swapped
presentation `tileKillerPerm` both satisfy the invariant; their code-level
equality transfers to segment-set equality by the theorem. -/
theorem isEqualTo_iff_segmentSetEq_witness :
    segmentSetEq tileKiller tileKillerPerm :=
  (isEqualTo_iff_segmentSetEq tileKiller tileKillerPerm (by decide) (by decide)).mp
    (by decide)

/-- `heapExtends` is reflexive. -/
theorem heapExtends_refl (h : Heap) : heapExtends h h :=
  ⟨le_refl _, le_refl _, fun _ _ => rfl, fun _ _ => rfl⟩

/-- `heapExtends` is transitive. -/
theorem heapExtends_trans {h1 h2 h3 : Heap} (a : heapExtends h1 h2)
    (b : heapExtends h2 h3) : heapExtends h1 h3 := by
  obtain ⟨ab, at', abl, atl⟩ := a
  obtain ⟨bb, bt, bbl, btl⟩ := b
  exact ⟨le_trans ab bb, le_trans at' bt,
    fun i hi => (bbl i (lt_of_lt_of_le hi ab)).trans (abl i hi),
    fun i hi => (btl i (lt_of_lt_of_le hi at')).trans (atl i hi)⟩

/-- Allocating a board object preserves all existing objects. -/
theorem heapExtends_allocBoard (h : Heap) (b : BoardState) :
    heapExtends h (h.allocBoard b).1 := by
  refine ⟨?_, le_refl _, ?_, fun i hi => rfl⟩
  · simp [Heap.allocBoard]
  · intro i hi
    simp [Heap.allocBoard, Heap.lookupBoard, List.getElem?_append_left hi]

/-- Allocating a tile object preserves all existing objects. -/
theorem heapExtends_allocTile (h : Heap) (t : Tile) :
    heapExtends h (h.allocTile t).1 := by
  refine ⟨le_refl _, ?_, fun i hi => rfl, ?_⟩
  · simp [Heap.allocTile]
  · intro i hi
    simp [Heap.allocTile, Heap.lookupTile, List.getElem?_append_left hi]

/-- Mutating a board object allocated after the old heap's end preserves
all objects of the old heap. -/
theorem heapExtends_setBoard {h h' : Heap} (e : heapExtends h h') (r : Nat)
    (hr : h.boards.length ≤ r) (b : BoardState) :
    heapExtends h (h'.setBoard r b) := by
  obtain ⟨eb, et, ebl, etl⟩ := e
  refine ⟨?_, et, ?_, etl⟩
  · simpa [Heap.setBoard] using eb
  · intro i hi
    have hne : r ≠ i := by omega
    simp only [Heap.setBoard, Heap.lookupBoard, List.getElem?_set_ne hne]
    exact ebl i hi

/-- `checkPlacementLegalityH` leaves the heap untouched. -/
theorem checkPlacementLegalityH_extends (h : Heap) (r : Nat) (tp : TilePlacement)
    (pl : PlayerRef) :
    heapExtends h (RuleCheckerH.checkPlacementLegalityH h r tp pl).2 := by
  unfold RuleCheckerH.checkPlacementLegalityH
  cases hb : h.lookupBoard r <;> exact heapExtends_refl h

/-- `checkPlacementValidityH` mutates only the board copy it allocates. -/
theorem checkPlacementValidityH_extends (h : Heap) (r : Nat) (tp : TilePlacement)
    (playerId : String) :
    heapExtends h (RuleCheckerH.checkPlacementValidityH h r tp playerId).2 := by
  unfold RuleCheckerH.checkPlacementValidityH
  cases hb : h.lookupBoard r with
  | none => exact heapExtends_refl h
  | some bs =>
    simp only
    cases hp : bs.copy.placeTile tp.tile tp.coords with
    | error e => exact heapExtends_allocBoard h bs.copy
    | ok newBoard =>
      have halloc := heapExtends_allocBoard h bs.copy
      exact heapExtends_setBoard halloc (h.allocBoard bs.copy).2 (le_refl _) newBoard

/-- `checkTileRotationH` mutates only the board copy it allocates. -/
theorem checkTileRotationH_extends (h : Heap) (r : Nat) (coords : Coords) (id : String)
    (tr : Nat) (j : Nat) :
    heapExtends h (RuleCheckerH.checkTileRotationH h r coords id tr j).2 := by
  unfold RuleCheckerH.checkTileRotationH
  cases hb : h.lookupBoard r with
  | none => exact heapExtends_refl h
  | some bs =>
    cases ht : h.lookupTile tr with
    | none => exact heapExtends_refl h
    | some tile =>
      simp only
      have halloc := heapExtends_trans (heapExtends_allocBoard h bs.copy)
        (heapExtends_allocTile (h.allocBoard bs.copy).1 (tile.copy j))
      cases hp : bs.copy.placeTile (tile.copy j) coords with
      | error e => exact halloc
      | ok newBoard =>
        exact heapExtends_setBoard halloc (h.allocBoard bs.copy).2 (le_refl _) newBoard

/-- The rotation loop only extends the heap. -/
theorem rotationLoopH_extends (r : Nat) (coords : Coords) (id : String) (tr : Nat)
    (js : List Nat) (h : Heap) :
    heapExtends h (RuleCheckerH.rotationLoopH r coords id tr h js).2 := by
  induction js generalizing h with
  | nil => exact heapExtends_refl h
  | cons j rest ih =>
    unfold RuleCheckerH.rotationLoopH
    have hstep := checkTileRotationH_extends h r coords id tr j
    cases hres : (RuleCheckerH.checkTileRotationH h r coords id tr j).1 with
    | none => simpa [hres] using hstep
    | some b =>
      cases b with
      | true => simpa [hres] using hstep
      | false =>
        simp only [hres]
        exact heapExtends_trans hstep (ih _)

/-- The hand loop only extends the heap. -/
theorem handLoopH_extends (r : Nat) (coords : Coords) (id : String)
    (trs : List Nat) (h : Heap) :
    heapExtends h (RuleCheckerH.handLoopH r coords id h trs).2 := by
  induction trs generalizing h with
  | nil => exact heapExtends_refl h
  | cons tr rest ih =>
    unfold RuleCheckerH.handLoopH
    have hstep := rotationLoopH_extends r coords id tr [0, 1, 2, 3] h
    cases hres : (RuleCheckerH.rotationLoopH r coords id tr h [0, 1, 2, 3]).1 with
    | none => simpa [hres] using hstep
    | some b =>
      cases b with
      | true => simpa [hres] using hstep
      | false =>
        simp only [hres]
        exact heapExtends_trans hstep (ih _)

/-- `checkHandValidityH` only extends the heap. -/
theorem checkHandValidityH_extends (h : Heap) (r : Nat) (tp : TilePlacement)
    (pl : PlayerRef) :
    heapExtends h (RuleCheckerH.checkHandValidityH h r tp pl).2 := by
  unfold RuleCheckerH.checkHandValidityH
  have hstep := checkPlacementValidityH_extends h r tp pl.id
  cases hres : (RuleCheckerH.checkPlacementValidityH h r tp pl.id).1 with
  | none => simpa [hres] using hstep
  | some b =>
    cases b with
    | true => simpa [hres] using hstep
    | false =>
      simp only [hres]
      exact heapExtends_trans hstep
        (handLoopH_extends r tp.coords pl.id pl.hand _)

/-- `canTakeActionH` only extends the heap. -/
theorem canTakeActionH_extends (h : Heap) (r : Nat) (tp : TilePlacement)
    (pl : PlayerRef) :
    heapExtends h (RuleCheckerH.canTakeActionH h r tp pl).2 := by
  unfold RuleCheckerH.canTakeActionH
  cases hb : h.lookupBoard r with
  | none => exact heapExtends_refl h
  | some bs =>
    simp only
    split_ifs with hleg
    · exact checkHandValidityH_extends h r tp pl
    · exact heapExtends_refl h

/-- `canPlaceAvatarH` leaves the heap untouched. -/
theorem canPlaceAvatarH_extends (h : Heap) (r : Nat) (playerId : String) (coords : Coords)
    (tile : Tile) (position : Position) :
    heapExtends h (RuleCheckerH.canPlaceAvatarH h r playerId coords tile position).2 := by
  unfold RuleCheckerH.canPlaceAvatarH
  cases hb : h.lookupBoard r <;> exact heapExtends_refl h

/-- C6: every rule-checker query leaves the real board-state object and
every pre-existing tile object (in particular every hand tile) unchanged
in the heap; hypothetical placements mutate only the freshly allocated
board copies. -/
theorem ruleChecker_preserves_real_state (h : Heap) (r tr : Nat) (tp : TilePlacement)
    (pl : PlayerRef) (playerId : String) (coords : Coords) (tile : Tile)
    (position : Position) (hr : r < h.boards.length) (htr : tr < h.tiles.length) :
    ((RuleCheckerH.checkPlacementLegalityH h r tp pl).2.lookupBoard r = h.lookupBoard r ∧
        (RuleCheckerH.checkPlacementLegalityH h r tp pl).2.lookupTile tr
          = h.lookupTile tr) ∧
      ((RuleCheckerH.checkPlacementValidityH h r tp playerId).2.lookupBoard r
            = h.lookupBoard r ∧
        (RuleCheckerH.checkPlacementValidityH h r tp playerId).2.lookupTile tr
            = h.lookupTile tr) ∧
      ((RuleCheckerH.checkHandValidityH h r tp pl).2.lookupBoard r = h.lookupBoard r ∧
        (RuleCheckerH.checkHandValidityH h r tp pl).2.lookupTile tr = h.lookupTile tr) ∧
      ((RuleCheckerH.canTakeActionH h r tp pl).2.lookupBoard r = h.lookupBoard r ∧
        (RuleCheckerH.canTakeActionH h r tp pl).2.lookupTile tr = h.lookupTile tr) ∧
      ((RuleCheckerH.canPlaceAvatarH h r playerId coords tile position).2.lookupBoard r
            = h.lookupBoard r ∧
        (RuleCheckerH.canPlaceAvatarH h r playerId coords tile position).2.lookupTile tr
            = h.lookupTile tr) := by
  have e1 := checkPlacementLegalityH_extends h r tp pl
  have e2 := checkPlacementValidityH_extends h r tp playerId
  have e3 := checkHandValidityH_extends h r tp pl
  have e4 := canTakeActionH_extends h r tp pl
  have e5 := canPlaceAvatarH_extends h r playerId coords tile position
  exact ⟨⟨e1.2.2.1 r hr, e1.2.2.2 tr htr⟩, ⟨e2.2.2.1 r hr, e2.2.2.2 tr htr⟩,
    ⟨e3.2.2.1 r hr, e3.2.2.2 tr htr⟩, ⟨e4.2.2.1 r hr, e4.2.2.2 tr htr⟩,
    ⟨e5.2.2.1 r hr, e5.2.2.2 tr htr⟩⟩

/-- C6 witness: on the concrete heap `heap0`, a `checkHandValidityH` call
(which allocates and mutates board copies) leaves the real board object
and the hand tile object unchanged. -/
theorem ruleChecker_preserves_real_state_witness :
    (RuleCheckerH.checkHandValidityH heap0 0 placementSuicide ⟨"p", [0]⟩).2.lookupBoard 0
        = heap0.lookupBoard 0 ∧
      (RuleCheckerH.checkHandValidityH heap0 0 placementSuicide ⟨"p", [0]⟩).2.lookupTile 0
        = heap0.lookupTile 0 :=
  (ruleChecker_preserves_real_state heap0 0 0 placementSuicide ⟨"p", [0]⟩ "p" ⟨1, 0⟩
      tileEscape ⟨Dir.east, 0⟩ (by decide) (by decide)).2.2.1

end Tsuro
